import Mathlib

/-!
Shallow embedding of the RC4 stream cipher core (`src/rc4/src/lib.rs`)
and proofs of its specified properties.

The Rust state `Rc4 { s: [u8; 256], i: u8, j: u8 }` is modelled with the
permutation table as a `List Nat` of length 256 holding byte values and
the two cursors as `Nat`s below 256; all `u8` wrapping arithmetic is
explicit `% 256`.  The `assert!` on the key length in `Rc4::new` (which
aborts construction in Rust) is modelled by returning an `Option`:
`none` on invalid key length.
-/

set_option maxRecDepth 4000

namespace RC4

/-- `l.swap a b` of Rust's `<[u8]>::swap`: exchange entries `a` and `b`.
Both reads happen before either write (hence both `getD`s on `l`). -/
def listSwap (l : List Nat) (a b : Nat) : List Nat :=
  (l.set a (l.getD b 0)).set b (l.getD a 0)

/-- The cipher state: `struct Rc4 { s: [u8; 256], i: u8, j: u8 }`. -/
structure Rc4 where
  s : List Nat
  i : Nat
  j : Nat
  deriving Repr, DecidableEq

/-- One iteration of the KSA scrambling loop in `Rc4::new`:
`j = j.wrapping_add(s[i]).wrapping_add(key[i % key.len()]); s.swap(i, j)`.
The pair carries `(s, j)`. -/
def ksaStep (key : List Nat) (p : List Nat × Nat) (i : Nat) : List Nat × Nat :=
  let j := (p.2 + p.1.getD i 0 + key.getD (i % key.length) 0) % 256
  (listSwap p.1 i j, j)

/-- The key-scheduling scramble of `Rc4::new`: start from the identity
permutation (`s[i] = i`); for `i in 0..256` run `ksaStep`. -/
def ksa (key : List Nat) : List Nat :=
  ((List.range 256).foldl (ksaStep key) (List.range 256, 0)).1

/-- `Rc4::new`: `assert!(5 <= key.len() && key.len() <= 256)` modelled as
`none`; otherwise the scheduled state with both cursors 0. -/
def Rc4.new (key : List Nat) : Option Rc4 :=
  if 5 ≤ key.length ∧ key.length ≤ 256 then
    some { s := ksa key, i := 0, j := 0 }
  else none

/-- `Rc4::prga_next`: advance the cursors, swap, and emit one keystream
byte.  Returns `(keystream byte, new state)`. -/
def Rc4.prga_next (c : Rc4) : Nat × Rc4 :=
  let i := (c.i + 1) % 256
  let j := (c.j + c.s.getD i 0) % 256
  let s := listSwap c.s i j
  (s.getD ((s.getD i 0 + s.getD j 0) % 256) 0, { s := s, i := i, j := j })

/-- `Rc4::apply_keystream`: XOR each buffer byte, in increasing index
order, with the next keystream byte.  Returns the rewritten buffer and
the advanced state. -/
def Rc4.apply_keystream : Rc4 → List Nat → List Nat × Rc4
  | c, [] => ([], c)
  | c, b :: rest =>
    let p := c.prga_next
    let q := Rc4.apply_keystream p.2 rest
    ((b ^^^ p.1) :: q.1, q.2)

/-- `Rc4::apply_keystream_static`: one-shot entry point, `Rc4::new`
followed by `apply_keystream`, discarding the final state.  `none`
exactly when `Rc4::new` fails on the key length. -/
def Rc4.apply_keystream_static (key data : List Nat) : Option (List Nat) :=
  (Rc4.new key).map fun c => (c.apply_keystream data).1

/-- Iterate `prga_next` (discarding outputs) `n` times. -/
def Rc4.stepN : Rc4 → Nat → Rc4
  | c, 0 => c
  | c, n + 1 => Rc4.stepN c.prga_next.2 n


/-! ### A fast mirror of the machine: the 256-entry table packed into
the base-256 digits of a single `Nat`.  Digit `i` of `t` is table entry
`i`.  This mirror is proved to simulate the `List`-based embedding
step by step and is used to evaluate the known-answer test vectors. -/

/-- Digit `i` (base 256) of the packed table `t`. -/
def nGet (t i : Nat) : Nat := t / 256 ^ i % 256

/-- Packed table `t` with digit `i` replaced by `v`. -/
def nSet (t i v : Nat) : Nat :=
  t % 256 ^ i + v * 256 ^ i + t / 256 ^ (i + 1) * 256 ^ (i + 1)

/-- Exchange digits `a` and `b` of the packed table `t`. -/
def nSwap (t a b : Nat) : Nat := nSet (nSet t a (nGet t b)) b (nGet t a)

/-- Pack a list of byte values into the base-256 digits of a `Nat`
(entry 0 is the least significant digit). -/
def encode : List Nat → Nat
  | [] => 0
  | x :: xs => x + 256 * encode xs

/-- The packed mirror of the cipher state `Rc4`. -/
structure NatRc4 where
  t : Nat
  i : Nat
  j : Nat
  deriving Repr, DecidableEq

/-- The packed view of a `List`-based cipher state. -/
def natView (c : Rc4) : NatRc4 := ⟨encode c.s, c.i, c.j⟩

/-- Packed mirror of `ksaStep`. -/
def ksaStepN (key : List Nat) (p : Nat × Nat) (i : Nat) : Nat × Nat :=
  let j := (p.2 + nGet p.1 i + key.getD (i % key.length) 0) % 256
  (nSwap p.1 i j, j)

/-- Packed mirror of `ksa`. -/
def ksaN (key : List Nat) : Nat :=
  ((List.range 256).foldl (ksaStepN key) (encode (List.range 256), 0)).1

/-- Packed mirror of `Rc4.prga_next`. -/
def prgaNextN (c : NatRc4) : Nat × NatRc4 :=
  let i := (c.i + 1) % 256
  let j := (c.j + nGet c.t i) % 256
  let t := nSwap c.t i j
  (nGet t ((nGet t i + nGet t j) % 256), { t := t, i := i, j := j })

/-- Iterate `prgaNextN` (discarding outputs) `n` times. -/
def stepKN : NatRc4 → Nat → NatRc4
  | c, 0 => c
  | c, n + 1 => stepKN (prgaNextN c).2 n

/-- The first `n` keystream bytes emitted from the packed state `c`. -/
def ksListN : NatRc4 → Nat → List Nat
  | _, 0 => []
  | c, n + 1 =>
    let p := prgaNextN c
    p.1 :: ksListN p.2 n

/-- The six 16-byte windows, at offsets 0, 256, 512, 1024, 2048 and
3072, of a buffer (the windows checked by the published RC4 test
vectors for the 40-bit key). -/
def testWindows (l : List Nat) : List (List Nat) :=
  [0, 256, 512, 1024, 2048, 3072].map fun off => (l.drop off).take 16


/-- The `n`-th keystream byte (0-based) generated from state `c`. -/
def ksByte (c : Rc4) (n : Nat) : Nat := (c.stepN n).prga_next.1

/-- The spec wording of the KSA scrambling pass (spec section 4.1), for
the refinement comparison -- an ascending loop over `n` in `0..255` that
updates the scratch cursor and swaps, carried out by explicit recursion
on the remaining iteration count. -/
def ksaSpecAux (key : List Nat) : Nat → Nat → List Nat → Nat → List Nat × Nat
  | 0, _, s, j => (s, j)
  | fuel + 1, n, s, j =>
    let jn := (j + s.getD n 0 + key.getD (n % key.length) 0) % 256
    ksaSpecAux key fuel (n + 1) (listSwap s n jn) jn

/-- The spec wording of the KSA (spec section 4.1), for the refinement
comparison: start from the identity (entry `n` holds `n`) and run the ascending pass with the
scratch cursor starting at 0. -/
def ksaSpec (key : List Nat) : List Nat :=
  (ksaSpecAux key 256 0 (List.range 256) 0).1

/-- The spec wording of `initialize(key)` (spec section 4.1): the
scheduled state with both persistent cursors 0, or failure on an
invalid key length. -/
def initializeSpec (key : List Nat) : Option Rc4 :=
  if 5 ≤ key.length ∧ key.length ≤ 256 then
    some { s := ksaSpec key, i := 0, j := 0 }
  else none

/-- The spec wording of the one-shot entry point (spec section 4.4):
`initialize(key)` followed by one `apply` call over the whole buffer,
discarding the resulting state, for the refinement comparison. -/
def applyKeystreamStaticSpec (key data : List Nat) : Option (List Nat) :=
  (initializeSpec key).map fun c => (c.apply_keystream data).1

/-! ### Bounds-checked mirror of the cipher

Every table or key access of the Rust code is an index expression that
panics when out of bounds.  The following mirror performs exactly the
same accesses through `l[i]?` and fails (`none`) on any out-of-bounds
access, including the `%` by a zero key length.  Proving it equal to
the unchecked embedding shows every access is in bounds. -/

/-- `<[u8]>::swap` with explicit bounds checks on both indices. -/
def listSwapChecked (l : List Nat) (a b : Nat) : Option (List Nat) :=
  (l[a]?).bind fun x => (l[b]?).bind fun y => some ((l.set a y).set b x)

/-- One KSA iteration with every access checked. -/
def ksaStepChecked (key : List Nat) (p : List Nat × Nat) (i : Nat) :
    Option (List Nat × Nat) :=
  if key.length = 0 then none
  else
    (p.1[i]?).bind fun si => (key[i % key.length]?).bind fun ki =>
      (listSwapChecked p.1 i ((p.2 + si + ki) % 256)).map
        fun s => (s, (p.2 + si + ki) % 256)

/-- The KSA with every access checked. -/
def ksaChecked (key : List Nat) : Option (List Nat) :=
  ((List.range 256).foldlM (ksaStepChecked key) (List.range 256, 0)).map
    fun p => p.1

/-- `Rc4::new` with every access checked. -/
def newChecked (key : List Nat) : Option Rc4 :=
  if 5 ≤ key.length ∧ key.length ≤ 256 then
    (ksaChecked key).map fun s => { s := s, i := 0, j := 0 }
  else none

/-- `Rc4::prga_next` with every access checked. -/
def prgaNextChecked (c : Rc4) : Option (Nat × Rc4) :=
  (c.s[(c.i + 1) % 256]?).bind fun si =>
    (listSwapChecked c.s ((c.i + 1) % 256) ((c.j + si) % 256)).bind fun s =>
      (s[(c.i + 1) % 256]?).bind fun a =>
        (s[(c.j + si) % 256]?).bind fun b =>
          (s[(a + b) % 256]?).map fun k =>
            (k, { s := s, i := (c.i + 1) % 256, j := (c.j + si) % 256 })

/-- `Rc4::apply_keystream` with every access checked. -/
def applyChecked : Rc4 → List Nat → Option (List Nat × Rc4)
  | c, [] => some ([], c)
  | c, b :: rest =>
    (prgaNextChecked c).bind fun p =>
      (applyChecked p.2 rest).map fun q => ((b ^^^ p.1) :: q.1, q.2)

/-- `Rc4::apply_keystream_static` with every access checked. -/
def applyKeystreamStaticChecked (key data : List Nat) : Option (List Nat) :=
  (newChecked key).bind fun c => (applyChecked c data).map fun q => q.1

/-! ### Basic facts about `listSwap` and the state table -/

theorem length_listSwap (l : List Nat) (a b : Nat) :
    (listSwap l a b).length = l.length := by
  simp [listSwap]

theorem set_getD_self : ∀ (l : List Nat) (i : Nat), i < l.length →
    l.set i (l.getD i 0) = l
  | _ :: _, 0, _ => rfl
  | x :: xs, i + 1, h =>
    congrArg (x :: ·) (set_getD_self xs i (by simpa using h))

theorem getD_set_ne (l : List Nat) {a b : Nat} (h : a ≠ b) (x : Nat) :
    (l.set a x).getD b 0 = l.getD b 0 := by
  rw [List.getD_eq_getElem?_getD, List.getD_eq_getElem?_getD,
    List.getElem?_set_ne h]

theorem getD_lt_256 {l : List Nat} (hb : ∀ x ∈ l, x < 256) (i : Nat) :
    l.getD i 0 < 256 := by
  rcases Nat.lt_or_ge i l.length with h | h
  · refine hb _ ?_
    rw [List.getD_eq_getElem?_getD, List.getElem?_eq_getElem h]
    exact List.getElem_mem h
  · rw [List.getD_eq_getElem?_getD, List.getElem?_eq_none h]
    simp

theorem bytes_set {l : List Nat} (hb : ∀ x ∈ l, x < 256) {v : Nat}
    (hv : v < 256) (i : Nat) : ∀ x ∈ l.set i v, x < 256 := by
  intro x hx
  rcases List.mem_or_eq_of_mem_set hx with h | h
  · exact hb _ h
  · omega

theorem bytes_listSwap {l : List Nat} (hb : ∀ x ∈ l, x < 256) (a b : Nat) :
    ∀ x ∈ listSwap l a b, x < 256 :=
  bytes_set (bytes_set hb (getD_lt_256 hb b) a) (getD_lt_256 hb a) b

/-- Replacing entry `m` by `x` while holding on to the old entry `m` is a
permutation-preserving exchange. -/
theorem getD_cons_set_perm : ∀ (l : List Nat) (m x : Nat), m < l.length →
    List.Perm ((l.getD m 0) :: l.set m x) (x :: l)
  | y :: ys, 0, x, _ => List.Perm.swap x y ys
  | y :: ys, m + 1, x, h => by
    have hm : m < ys.length := by simpa using h
    have t1 : List.Perm (ys.getD m 0 :: y :: ys.set m x)
        (y :: ys.getD m 0 :: ys.set m x) := List.Perm.swap _ _ _
    have t2 : List.Perm (y :: ys.getD m 0 :: ys.set m x) (y :: x :: ys) :=
      (getD_cons_set_perm ys m x hm).cons y
    have t3 : List.Perm (y :: x :: ys) (x :: y :: ys) := List.Perm.swap _ _ _
    exact (t1.trans t2).trans t3

/-- An in-bounds `listSwap` is a permutation of the original table. -/
theorem listSwap_perm (l : List Nat) (a b : Nat)
    (ha : a < l.length) (hb : b < l.length) : List.Perm (listSwap l a b) l := by
  by_cases hab : a = b
  · subst hab
    unfold listSwap
    rw [List.set_set, set_getD_self _ _ ha]
  · have h1 := getD_cons_set_perm l a (l.getD b 0) ha
    have hlen : b < (l.set a (l.getD b 0)).length := by
      rwa [List.length_set]
    have h2 := getD_cons_set_perm (l.set a (l.getD b 0)) b (l.getD a 0) hlen
    rw [getD_set_ne l hab] at h2
    exact (h2.trans h1).cons_inv

/-! ### Well-formed cipher states -/

/-- A well-formed state: the 256-entry table is a permutation of the
byte values `0..255`.  This packages the length (256) and the byte
bound on every entry. -/
def Rc4.WF (c : Rc4) : Prop := List.Perm c.s (List.range 256)

theorem Rc4.WF.length_s {c : Rc4} (h : c.WF) : c.s.length = 256 := by
  have h' : List.Perm c.s (List.range 256) := h
  exact h'.length_eq.trans (List.length_range 256)

theorem Rc4.WF.bytes {c : Rc4} (h : c.WF) : ∀ x ∈ c.s, x < 256 := by
  have h' : List.Perm c.s (List.range 256) := h
  exact fun _ hx => List.mem_range.mp (h'.mem_iff.mp hx)

/-- Every iteration of the KSA scrambling fold keeps the table a
permutation of `0..255`. -/
theorem ksa_fold_perm (key : List Nat) :
    ∀ (idxs : List Nat) (p : List Nat × Nat), (∀ i ∈ idxs, i < 256) →
      List.Perm p.1 (List.range 256) →
        List.Perm ((idxs.foldl (ksaStep key) p).1) (List.range 256) := by
  intro idxs
  induction idxs with
  | nil => intro p _ hp; exact hp
  | cons i rest ih =>
    intro p hlt hp
    rw [List.foldl_cons]
    refine ih _ (fun k hk => hlt k (List.mem_cons_of_mem i hk)) ?_
    have hlen : p.1.length = 256 :=
      hp.length_eq.trans (List.length_range 256)
    have hi : i < p.1.length := by
      rw [hlen]; exact hlt i (List.mem_cons_self i rest)
    have hj : (p.2 + p.1.getD i 0 + key.getD (i % key.length) 0) % 256 <
        p.1.length := by
      rw [hlen]; exact Nat.mod_lt _ (by omega)
    exact ((listSwap_perm p.1 _ _ hi hj).trans hp)

/-- The scheduled table is a permutation of `0..255`, for any key. -/
theorem ksa_perm (key : List Nat) : List.Perm (ksa key) (List.range 256) := by
  unfold ksa
  exact ksa_fold_perm key (List.range 256) (List.range 256, 0)
    (fun _ hi => List.mem_range.mp hi) (List.Perm.refl (List.range 256))

theorem Rc4.wf_mk {s : List Nat} (i j : Nat)
    (h : List.Perm s (List.range 256)) : Rc4.WF ⟨s, i, j⟩ := h

theorem new_wf {key : List Nat} {c : Rc4} (h : Rc4.new key = some c) :
    c.WF := by
  unfold Rc4.new at h
  by_cases hk : 5 ≤ key.length ∧ key.length ≤ 256
  · rw [if_pos hk] at h
    rw [← Option.some.inj h]
    exact Rc4.wf_mk 0 0 (ksa_perm key)
  · rw [if_neg hk] at h
    cases h

/-- One PRGA step keeps the state well-formed. -/
theorem prga_next_wf {c : Rc4} (h : c.WF) : c.prga_next.2.WF := by
  show (listSwap c.s _ _).Perm (List.range 256)
  refine (listSwap_perm _ _ _ ?_ ?_).trans h <;>
    · rw [h.length_s]; exact Nat.mod_lt _ (by omega)

theorem stepN_wf {c : Rc4} (h : c.WF) : ∀ n, (c.stepN n).WF := by
  intro n
  induction n generalizing c with
  | zero => exact h
  | succ n ih => exact ih (prga_next_wf h)

/-! ### Digit arithmetic for the packed table -/

theorem mod_mul_helper {x : Nat} (E m : Nat) (hx : x < 256) (hm : 0 < m) :
    (x + 256 * E) % (256 * m) = x + 256 * (E % m) := by
  rw [Nat.add_mod, Nat.mul_mod_mul_left]
  have h1 : x % (256 * m) = x :=
    Nat.mod_eq_of_lt (Nat.lt_of_lt_of_le hx (Nat.le_mul_of_pos_right 256 hm))
  rw [h1]
  apply Nat.mod_eq_of_lt
  have h2 : E % m < m := Nat.mod_lt _ hm
  have h3 : 256 * (E % m) + 256 ≤ 256 * m := by
    have h4 : E % m + 1 ≤ m := h2
    calc 256 * (E % m) + 256 = 256 * (E % m + 1) := by ring
      _ ≤ 256 * m := Nat.mul_le_mul_left 256 h4
  omega

theorem div_mul_helper {x : Nat} (E m : Nat) (hx : x < 256) :
    (x + 256 * E) / (256 * m) = E / m := by
  rw [← Nat.div_div_eq_div_mul, Nat.add_mul_div_left x E (by omega), 
    Nat.div_eq_of_lt hx, Nat.zero_add]

/-- Reading digit `i` of a packed byte list is reading entry `i`
(out-of-range reads give the default 0 on both sides). -/
theorem nGet_encode : ∀ (l : List Nat), (∀ x ∈ l, x < 256) →
    ∀ i, nGet (encode l) i = l.getD i 0 := by
  intro l
  induction l with
  | nil => intro _ i; simp [nGet, encode, Nat.zero_div]
  | cons x xs ih =>
    intro hb i
    have hx : x < 256 := hb x (List.mem_cons_self x xs)
    have hxs : ∀ y ∈ xs, y < 256 := fun y hy => hb y (List.mem_cons_of_mem x hy)
    cases i with
    | zero =>
      show (x + 256 * encode xs) / 256 ^ 0 % 256 = x
      rw [Nat.pow_zero, Nat.div_one, Nat.add_mul_mod_self_left,
        Nat.mod_eq_of_lt hx]
    | succ i =>
      show (x + 256 * encode xs) / 256 ^ (i + 1) % 256 = xs.getD i 0
      rw [Nat.pow_succ', div_mul_helper (encode xs) (256 ^ i) hx]
      exact ih hxs i

/-- Writing entry `i` of a packed byte list is writing digit `i`. -/
theorem encode_set : ∀ (l : List Nat) (i v : Nat), (∀ x ∈ l, x < 256) →
    i < l.length → encode (l.set i v) = nSet (encode l) i v := by
  intro l
  induction l with
  | nil => intro i v _ h; simp at h
  | cons x xs ih =>
    intro i v hb hlen
    have hx : x < 256 := hb x (List.mem_cons_self x xs)
    have hxs : ∀ y ∈ xs, y < 256 := fun y hy => hb y (List.mem_cons_of_mem x hy)
    cases i with
    | zero =>
      show v + 256 * encode xs =
        (x + 256 * encode xs) % 256 ^ 0 + v * 256 ^ 0 +
          (x + 256 * encode xs) / 256 ^ 1 * 256 ^ 1
      rw [Nat.pow_zero, Nat.mod_one, Nat.pow_one]
      have hdiv : (x + 256 * encode xs) / 256 = encode xs := by
        rw [Nat.add_mul_div_left x (encode xs) (by omega),
          Nat.div_eq_of_lt hx, Nat.zero_add]
      rw [hdiv]
      ring
    | succ i =>
      have hi : i < xs.length := by simpa using hlen
      show x + 256 * encode (xs.set i v) =
        (x + 256 * encode xs) % 256 ^ (i + 1) + v * 256 ^ (i + 1) +
          (x + 256 * encode xs) / 256 ^ (i + 2) * 256 ^ (i + 2)
      rw [ih i v hxs hi]
      show x + 256 * (encode xs % 256 ^ i + v * 256 ^ i +
          encode xs / 256 ^ (i + 1) * 256 ^ (i + 1)) = _
      rw [show (256:Nat) ^ (i + 1) = 256 * 256 ^ i from Nat.pow_succ',
        mod_mul_helper (encode xs) (256 ^ i) hx (Nat.pow_pos (by omega)),
        show (256:Nat) ^ (i + 2) = 256 * 256 ^ (i + 1) from Nat.pow_succ',
        div_mul_helper (encode xs) (256 ^ (i + 1)) hx,
        show (256:Nat) ^ (i + 1) = 256 * 256 ^ i from Nat.pow_succ']
      ring

/-- Swapping entries `a` and `b` of a packed byte list is swapping the
corresponding digits. -/
theorem encode_listSwap (l : List Nat) (a b : Nat)
    (hb : ∀ x ∈ l, x < 256) (ha : a < l.length) (hbl : b < l.length) :
    encode (listSwap l a b) = nSwap (encode l) a b := by
  unfold listSwap nSwap
  rw [encode_set (l.set a (l.getD b 0)) b (l.getD a 0)
      (bytes_set hb (getD_lt_256 hb b) a) (by rwa [List.length_set]),
    encode_set l a (l.getD b 0) hb ha,
    nGet_encode l hb a, nGet_encode l hb b]

/-! ### The packed machine simulates the `List` machine -/

theorem apply_keystream_nil (c : Rc4) : c.apply_keystream [] = ([], c) := rfl

theorem apply_keystream_cons (c : Rc4) (b : Nat) (rest : List Nat) :
    c.apply_keystream (b :: rest) =
      ((b ^^^ c.prga_next.1) :: (Rc4.apply_keystream c.prga_next.2 rest).1,
        (Rc4.apply_keystream c.prga_next.2 rest).2) := rfl


theorem ksListN_succ (c : NatRc4) (n : Nat) :
    ksListN c (n + 1) = (prgaNextN c).1 :: ksListN (prgaNextN c).2 n := rfl

/-- One PRGA step in the packed world mirrors one PRGA step in the
`List` world. -/
theorem prga_next_sim {c : Rc4} (h : c.WF) :
    prgaNextN (natView c) = (c.prga_next.1, natView c.prga_next.2) := by
  have hby := h.bytes
  have hlen := h.length_s
  have hi : (c.i + 1) % 256 < c.s.length := by
    rw [hlen]; exact Nat.mod_lt _ (by omega)
  have hj : (c.j + c.s.getD ((c.i + 1) % 256) 0) % 256 < c.s.length := by
    rw [hlen]; exact Nat.mod_lt _ (by omega)
  simp only [prgaNextN, natView, Rc4.prga_next]
  rw [nGet_encode c.s hby]
  rw [← encode_listSwap c.s _ _ hby hi hj]
  have hb2 := bytes_listSwap hby ((c.i + 1) % 256)
    ((c.j + c.s.getD ((c.i + 1) % 256) 0) % 256)
  simp only [nGet_encode _ hb2]

/-- One KSA iteration in the packed world mirrors one in the `List`
world. -/
theorem ksaStep_sim (key : List Nat) {s : List Nat} (j i : Nat)
    (hb : ∀ x ∈ s, x < 256) (hlen : s.length = 256) (hi : i < 256) :
    ksaStepN key (encode s, j) i =
      (encode (ksaStep key (s, j) i).1, (ksaStep key (s, j) i).2) := by
  have hi' : i < s.length := by omega
  have hj : (j + s.getD i 0 + key.getD (i % key.length) 0) % 256 < s.length := by
    rw [hlen]; exact Nat.mod_lt _ (by omega)
  simp only [ksaStepN, ksaStep]
  rw [nGet_encode s hb]
  rw [← encode_listSwap s _ _ hb hi' hj]

/-- The whole KSA fold in the packed world mirrors the `List` world. -/
theorem ksa_fold_sim (key : List Nat) :
    ∀ (idxs : List Nat) (s : List Nat) (j : Nat), (∀ i ∈ idxs, i < 256) →
      List.Perm s (List.range 256) →
      idxs.foldl (ksaStepN key) (encode s, j) =
        (encode ((idxs.foldl (ksaStep key) (s, j)).1),
          (idxs.foldl (ksaStep key) (s, j)).2) := by
  intro idxs
  induction idxs with
  | nil => intro s j _ _; rfl
  | cons i rest ih =>
    intro s j hlt hp
    have hb : ∀ x ∈ s, x < 256 :=
      fun _ hx => List.mem_range.mp (hp.mem_iff.mp hx)
    have hlen : s.length = 256 := hp.length_eq.trans (List.length_range 256)
    have hi : i < 256 := hlt i (List.mem_cons_self i rest)
    have hperm1 : List.Perm (ksaStep key (s, j) i).1 (List.range 256) := by
      refine (listSwap_perm s _ _ (by omega) ?_).trans hp
      rw [hlen]; exact Nat.mod_lt _ (by omega)
    rw [List.foldl_cons, List.foldl_cons, ksaStep_sim key j i hb hlen hi]
    rw [ih (ksaStep key (s, j) i).1 (ksaStep key (s, j) i).2
      (fun k hk => hlt k (List.mem_cons_of_mem i hk)) hperm1]

/-- The packed KSA computes the packed view of the `List` KSA. -/
theorem ksa_sim (key : List Nat) : ksaN key = encode (ksa key) := by
  unfold ksaN ksa
  rw [ksa_fold_sim key (List.range 256) (List.range 256) 0
    (fun _ hi => List.mem_range.mp hi) (List.Perm.refl _)]

/-- Applying the keystream to an all-zero buffer yields exactly the
keystream, as computed by the packed machine. -/
theorem apply_zero_sim : ∀ (n : Nat) (c : Rc4), c.WF →
    (c.apply_keystream (List.replicate n 0)).1 = ksListN (natView c) n := by
  intro n
  induction n with
  | zero => intro c _; rfl
  | succ n ih =>
    intro c h
    rw [List.replicate_succ, apply_keystream_cons, Nat.zero_xor,
      ih c.prga_next.2 (prga_next_wf h), ksListN_succ, prga_next_sim h]

/-! ### Keystream windows in the packed world -/

theorem stepKN_add (m : Nat) : ∀ (k : Nat) (c : NatRc4),
    stepKN c (m + k) = stepKN (stepKN c m) k := by
  induction m with
  | zero => intro k c; rw [Nat.zero_add]; rfl
  | succ m ih =>
    intro k c
    rw [Nat.succ_add]
    show stepKN (prgaNextN c).2 (m + k) = _
    rw [ih k (prgaNextN c).2]
    rfl

theorem ksListN_length : ∀ (n : Nat) (c : NatRc4), (ksListN c n).length = n := by
  intro n
  induction n with
  | zero => intro c; rfl
  | succ n ih => intro c; rw [ksListN_succ]; simp [ih]

theorem ksListN_add (m : Nat) : ∀ (k : Nat) (c : NatRc4),
    ksListN c (m + k) = ksListN c m ++ ksListN (stepKN c m) k := by
  induction m with
  | zero => intro k c; rw [Nat.zero_add]; rfl
  | succ m ih =>
    intro k c
    rw [Nat.succ_add]
    show (prgaNextN c).1 :: ksListN (prgaNextN c).2 (m + k) = _
    rw [ih k (prgaNextN c).2]
    rfl

/-- A 16-byte window at offset `off` of an `n`-byte keystream is the
16 bytes generated after `off` PRGA steps. -/
theorem ksListN_window (c : NatRc4) (off n : Nat) (h : off + 16 ≤ n) :
    ((ksListN c n).drop off).take 16 = ksListN (stepKN c off) 16 := by
  have h1 : n = off + (16 + (n - off - 16)) := by omega
  rw [h1, ksListN_add off _ c, List.drop_left' (ksListN_length off c),
    ksListN_add 16 _ (stepKN c off),
    List.take_left' (ksListN_length 16 (stepKN c off))]

/-! ### Involution of keystream application -/

/-- Applying the keystream of the same starting state twice restores
the buffer: both runs generate the same keystream and XOR cancels. -/
theorem apply_keystream_involutive (data : List Nat) : ∀ c : Rc4,
    (c.apply_keystream (c.apply_keystream data).1).1 = data := by
  induction data with
  | nil => intro c; rfl
  | cons b rest ih =>
    intro c
    rw [apply_keystream_cons, apply_keystream_cons]
    rw [Nat.xor_cancel_right, ih c.prga_next.2]

/-- C1.  For every key of length in `[5, 256]` and every buffer,
applying `apply_keystream_static` twice with that key (each run
initializing its own fresh state from the key) restores the buffer
exactly. -/
theorem claim_C1_involution (key data : List Nat)
    (h5 : 5 ≤ key.length) (h256 : key.length ≤ 256) :
    (Rc4.apply_keystream_static key data).bind
      (fun out => Rc4.apply_keystream_static key out) = some data := by
  unfold Rc4.apply_keystream_static Rc4.new
  rw [if_pos ⟨h5, h256⟩]
  exact congrArg some (apply_keystream_involutive data _)

/-- Witness for C1 at the key `[1,2,3,4,5]` and the buffer `[72,101,108]`. -/
theorem claim_C1_involution_witness :
    (Rc4.apply_keystream_static [1, 2, 3, 4, 5] [72, 101, 108]).bind
      (fun out => Rc4.apply_keystream_static [1, 2, 3, 4, 5] out) =
        some [72, 101, 108] :=
  claim_C1_involution [1, 2, 3, 4, 5] [72, 101, 108] (by decide) (by decide)


/-! ### Known-answer computation for the 40-bit test key

The heavy evaluation runs on the packed machine in chunks of at most
256 PRGA steps, with the intermediate packed states spelled out as
numerals, so that each kernel evaluation stays shallow. -/

theorem stepKN_zero (c : NatRc4) : stepKN c 0 = c := rfl

set_option maxRecDepth 40000 in
theorem ksa_fold_first_half :
    (List.range 128).foldl (ksaStepN [1, 2, 3, 4, 5])
      (encode (List.range 256), 0) = (529740416682826622092725454335280984015022976983548930794727220010776081094716129811840959253485331943895002079309166658293119410209069846648466573504155054922453546302022102208344991703434115280632694247660894239413855891131192613359174078920735810676252698435004444223325228958028372778780611689932155552080024311763963682110623290347001209749042938169680732794313894475444852538681011376469514282897732856576412152863747351756927897485758732888309259856774466733416651151297701211908747886131094032543467620481090242631660758253855928795945275710546895762538478770279434524021037653570494834063168888074496639745, 178) := by decide

set_option maxRecDepth 40000 in
theorem ksa_fold_second_half :
    ((List.range 128).map (fun x => 128 + x)).foldl (ksaStepN [1, 2, 3, 4, 5])
      (529740416682826622092725454335280984015022976983548930794727220010776081094716129811840959253485331943895002079309166658293119410209069846648466573504155054922453546302022102208344991703434115280632694247660894239413855891131192613359174078920735810676252698435004444223325228958028372778780611689932155552080024311763963682110623290347001209749042938169680732794313894475444852538681011376469514282897732856576412152863747351756927897485758732888309259856774466733416651151297701211908747886131094032543467620481090242631660758253855928795945275710546895762538478770279434524021037653570494834063168888074496639745, 178) = (11200709649678980513989516909105240826050104342921763185395149412334359895947911773901733639954513548261651832268791394313576442266381935501454484750268364949813996185550344131561638396163232444011473268916829872365671631692577209788191592252255472865859155200901073706471406223969895477259756396112095406933289568253016026101632978716813595260948217976199670717981410725956737847439270874403010365021691355305427355452188632920559743954035085011134788911603426178302246569157328824663213513013218521080477968516138220362241461252626964381993770480528291758088468515324359029519140121933562696850501518540720568795905, 103) := by decide

/-- The packed scheduled table for the test key `[1,2,3,4,5]`. -/
theorem ksaN_test_key : ksaN [1, 2, 3, 4, 5] = 11200709649678980513989516909105240826050104342921763185395149412334359895947911773901733639954513548261651832268791394313576442266381935501454484750268364949813996185550344131561638396163232444011473268916829872365671631692577209788191592252255472865859155200901073706471406223969895477259756396112095406933289568253016026101632978716813595260948217976199670717981410725956737847439270874403010365021691355305427355452188632920559743954035085011134788911603426178302246569157328824663213513013218521080477968516138220362241461252626964381993770480528291758088468515324359029519140121933562696850501518540720568795905 := by
  have hsplit : List.range 256 =
      List.range 128 ++ (List.range 128).map (fun x => 128 + x) :=
    List.range_add 128 128
  have hgen : ∀ t0 : Nat,
      ((List.range 256).foldl (ksaStepN [1, 2, 3, 4, 5]) (t0, 0)).1 =
      (((List.range 128).map (fun x => 128 + x)).foldl (ksaStepN [1, 2, 3, 4, 5])
        ((List.range 128).foldl (ksaStepN [1, 2, 3, 4, 5]) (t0, 0))).1 := by
    intro t0
    rw [hsplit, List.foldl_append]
  unfold ksaN
  rw [hgen (encode (List.range 256)), ksa_fold_first_half, ksa_fold_second_half]

set_option maxRecDepth 40000 in
theorem prga_chunk_1 : stepKN ⟨11200709649678980513989516909105240826050104342921763185395149412334359895947911773901733639954513548261651832268791394313576442266381935501454484750268364949813996185550344131561638396163232444011473268916829872365671631692577209788191592252255472865859155200901073706471406223969895477259756396112095406933289568253016026101632978716813595260948217976199670717981410725956737847439270874403010365021691355305427355452188632920559743954035085011134788911603426178302246569157328824663213513013218521080477968516138220362241461252626964381993770480528291758088468515324359029519140121933562696850501518540720568795905, 0, 0⟩ 256 = ⟨6646758450787849834314584911317525341505779069088980110704997540999854504596707081205916370112033881544336170974567313946201091331939994782719034682098730427538561564122737117384335876963070383467616114605647057650021067407182962670839084931542794397252540818409953517843091359275677626270530883067961729863335682003553897648408928492913035624890907826929357026232616766054164293846420432104291750698683904302497810612635647900829508883808149434250323110962474875966805928804932992234769140646505071327852364822509883680285143896876442558170528020924689436536377630832198282056308112487298229979719772029916786380555, 0, 27⟩ := by decide

set_option maxRecDepth 40000 in
theorem prga_chunk_2 : stepKN ⟨6646758450787849834314584911317525341505779069088980110704997540999854504596707081205916370112033881544336170974567313946201091331939994782719034682098730427538561564122737117384335876963070383467616114605647057650021067407182962670839084931542794397252540818409953517843091359275677626270530883067961729863335682003553897648408928492913035624890907826929357026232616766054164293846420432104291750698683904302497810612635647900829508883808149434250323110962474875966805928804932992234769140646505071327852364822509883680285143896876442558170528020924689436536377630832198282056308112487298229979719772029916786380555, 0, 27⟩ 256 = ⟨7143216186133290600294758893525077615056408970818049858336449761590933644183644249112689904206093540140259551936961654012750261246313079660924522774842686340070437915644206458758914335656466690513976098528982097000489494942136966207364515612412603049272020991863828112184602219223972662227745914539085860808613595268121206435973188458968088510591797205169186640493762552037812954652056116601745239530699636982324869137114693226310287790413307834685707195146746596328724035207515629600514208742183158263747256925402253395716977742669568028595750447164187655423274821117019020038204831731112321281622120093827471752490, 0, 151⟩ := by decide

set_option maxRecDepth 40000 in
theorem prga_chunk_3 : stepKN ⟨7143216186133290600294758893525077615056408970818049858336449761590933644183644249112689904206093540140259551936961654012750261246313079660924522774842686340070437915644206458758914335656466690513976098528982097000489494942136966207364515612412603049272020991863828112184602219223972662227745914539085860808613595268121206435973188458968088510591797205169186640493762552037812954652056116601745239530699636982324869137114693226310287790413307834685707195146746596328724035207515629600514208742183158263747256925402253395716977742669568028595750447164187655423274821117019020038204831731112321281622120093827471752490, 0, 151⟩ 256 = ⟨11399247746668640327014494106825524441478908101005487470330809239686536589248305856254967956570184855197315568299598497852489533516861716340404054095877194811977810169119653171738474136151337044561818449517410176104959417015531388994580291056774785475612430532487783692354074902674844508389201242353878022685458903551250699055612566318465328109100068096592419237166433597587078668029765317796714314694181867023565076852419716418402871088240788873554892636399383318405152762557466813966351259948104294298096547303690205460216738343461622844725941429242643037432422495146493118815149484543294071042956279944200920500045, 0, 246⟩ := by decide

set_option maxRecDepth 40000 in
theorem prga_chunk_4 : stepKN ⟨11399247746668640327014494106825524441478908101005487470330809239686536589248305856254967956570184855197315568299598497852489533516861716340404054095877194811977810169119653171738474136151337044561818449517410176104959417015531388994580291056774785475612430532487783692354074902674844508389201242353878022685458903551250699055612566318465328109100068096592419237166433597587078668029765317796714314694181867023565076852419716418402871088240788873554892636399383318405152762557466813966351259948104294298096547303690205460216738343461622844725941429242643037432422495146493118815149484543294071042956279944200920500045, 0, 246⟩ 256 = ⟨30498290585832988622961582663054887455190485693448650318964620683566255576738935022337714152602575855365583117793419725712144029891152257204909606091759326972604443036231435157904585604351084276164419214183118542555062483821400375476309827840042112670997362682552230924169604003791227322874514390613971630339238492505194430342711108372883563355760868494120039433772416535377233325358618782300180937607113651892470658634689284502449508133229722115387299858393112721884736484238029892749458327484268306273588760575015481744030831545033023378088329937642142341853934888927757560592150526085602401489108109658593900553390, 0, 178⟩ := by decide

set_option maxRecDepth 40000 in
theorem prga_chunk_5 : stepKN ⟨30498290585832988622961582663054887455190485693448650318964620683566255576738935022337714152602575855365583117793419725712144029891152257204909606091759326972604443036231435157904585604351084276164419214183118542555062483821400375476309827840042112670997362682552230924169604003791227322874514390613971630339238492505194430342711108372883563355760868494120039433772416535377233325358618782300180937607113651892470658634689284502449508133229722115387299858393112721884736484238029892749458327484268306273588760575015481744030831545033023378088329937642142341853934888927757560592150526085602401489108109658593900553390, 0, 178⟩ 256 = ⟨28429628241369654532607235461764543137518676588699027241541368540930711037785334307332383859116548468542660364396314457670080412461868037390753753895155283520363560998006336111208590707741283320847528691903477566159904030667533348640675595100852809470101814877561588506877280646551456030787428384554876188438828071096325861571354812450917723144290787459929546099206366685634939496286819278943129654864924700922720043493047928642761018249864691548493213975692279179702689793732724511745161376513608344502764756041052714715789855638022418837957915490782596630993757803224109028966719414948141700439948687157013242028350, 0, 36⟩ := by decide

set_option maxRecDepth 40000 in
theorem prga_chunk_6 : stepKN ⟨28429628241369654532607235461764543137518676588699027241541368540930711037785334307332383859116548468542660364396314457670080412461868037390753753895155283520363560998006336111208590707741283320847528691903477566159904030667533348640675595100852809470101814877561588506877280646551456030787428384554876188438828071096325861571354812450917723144290787459929546099206366685634939496286819278943129654864924700922720043493047928642761018249864691548493213975692279179702689793732724511745161376513608344502764756041052714715789855638022418837957915490782596630993757803224109028966719414948141700439948687157013242028350, 0, 36⟩ 256 = ⟨13635911509311209190520760368945820557254476732101666356549580773716347715263221895351999491778408925568691130588258351459871289396957115508162954246424586704686422735667837686786541115619954650621748453484547846966536620907755809830308066067557443853247816377964358917916088159820243712755091761796035601205500688820728731979022691493862879679383377201346988888476467986536001785527783635253140463787035403609114887028723143373768009959973439505276982518431802917322545532713255133292103632565122543393804036677376839611751068544698695746435232173402726179370773193757146826698349886650431726183143045302462728829075, 0, 179⟩ := by decide

set_option maxRecDepth 40000 in
theorem prga_chunk_7 : stepKN ⟨13635911509311209190520760368945820557254476732101666356549580773716347715263221895351999491778408925568691130588258351459871289396957115508162954246424586704686422735667837686786541115619954650621748453484547846966536620907755809830308066067557443853247816377964358917916088159820243712755091761796035601205500688820728731979022691493862879679383377201346988888476467986536001785527783635253140463787035403609114887028723143373768009959973439505276982518431802917322545532713255133292103632565122543393804036677376839611751068544698695746435232173402726179370773193757146826698349886650431726183143045302462728829075, 0, 179⟩ 256 = ⟨31725985352160581134658020392477620023384236926614961656108914309749437451536866250381167054000800322560987584215076651563646104843013388682383002981386664550681907308664271211166006388078940914860813499196245090072895999773140364689770777420781141237471838529070409059002148426888979395877724253098610140992256242574454991754537341515754494417968238319697839562176868580651555835182946020929801543305022256973040167797396692251294739924360551031787922112678404267339625389143829495820530720338836883677271950353019734151317488634743807820313640135892867879615031624894831865822710947948687876010386044210883415049570, 0, 113⟩ := by decide

set_option maxRecDepth 40000 in
theorem prga_chunk_8 : stepKN ⟨31725985352160581134658020392477620023384236926614961656108914309749437451536866250381167054000800322560987584215076651563646104843013388682383002981386664550681907308664271211166006388078940914860813499196245090072895999773140364689770777420781141237471838529070409059002148426888979395877724253098610140992256242574454991754537341515754494417968238319697839562176868580651555835182946020929801543305022256973040167797396692251294739924360551031787922112678404267339625389143829495820530720338836883677271950353019734151317488634743807820313640135892867879615031624894831865822710947948687876010386044210883415049570, 0, 113⟩ 256 = ⟨30006628386806380865495534941481559825034098582302995006688399989122500192002931632716281972939997452187028760733263148133671466244791069713930064809749009229915227112145044365834850818922321604346144298734226759015992441280399336976129886320662867878095404719571015167899329261889589892239604985430478887640857112470002181938353565368886807649308744118104824777200918020808352078658753646282348521167538926251539152425939425477029413062611260099525350302804232999618771976646943483630004368546219965532474886117478155416823774947446456046234777125092102795943399239372681120513048252819266669896660067293412465948605, 0, 108⟩ := by decide

set_option maxRecDepth 40000 in
theorem prga_chunk_9 : stepKN ⟨30006628386806380865495534941481559825034098582302995006688399989122500192002931632716281972939997452187028760733263148133671466244791069713930064809749009229915227112145044365834850818922321604346144298734226759015992441280399336976129886320662867878095404719571015167899329261889589892239604985430478887640857112470002181938353565368886807649308744118104824777200918020808352078658753646282348521167538926251539152425939425477029413062611260099525350302804232999618771976646943483630004368546219965532474886117478155416823774947446456046234777125092102795943399239372681120513048252819266669896660067293412465948605, 0, 108⟩ 256 = ⟨22715069595439388809181943021920349758839337425828285467764419694347016981391136897665125981789635616929643808499613496837619547247811840026230453804630254175784862282468876592875885429827117368333895216973293400066478935347305671826420427043389134183405616817373946058892851224484035937473187671155354883566024860612145614278447245069052899241193867374866556272451584688256047455973542455148216599608261430242124568564592807772426242602478095020460225508020277471362690093004838782776540538389558074081122137288834469781973081371145055782461759449272329663813494175753364579164128871640549372161796280529710106484805, 0, 230⟩ := by decide

set_option maxRecDepth 40000 in
theorem prga_chunk_10 : stepKN ⟨22715069595439388809181943021920349758839337425828285467764419694347016981391136897665125981789635616929643808499613496837619547247811840026230453804630254175784862282468876592875885429827117368333895216973293400066478935347305671826420427043389134183405616817373946058892851224484035937473187671155354883566024860612145614278447245069052899241193867374866556272451584688256047455973542455148216599608261430242124568564592807772426242602478095020460225508020277471362690093004838782776540538389558074081122137288834469781973081371145055782461759449272329663813494175753364579164128871640549372161796280529710106484805, 0, 230⟩ 256 = ⟨24613880400047767031608206540845629816934520448532978193172839064482835778517871290398243547664852824898033985357244905566546509670428794345354141527790079455881157807116311181288260004352458218580962497206333983975974257268888718779613410752211541439830069833975265983556618142362782647662903911960937626194981462961097278472653280210210519773263886554068951921246565472625327324198010961869079516148908685688666203813330104306112980191287479776110961857254771678827748531978175504582695306778259389696898483924863793703014915714564056538957586457606643692860627298673544031293579706317224031423720106438905739564525, 0, 64⟩ := by decide

set_option maxRecDepth 40000 in
theorem prga_chunk_11 : stepKN ⟨24613880400047767031608206540845629816934520448532978193172839064482835778517871290398243547664852824898033985357244905566546509670428794345354141527790079455881157807116311181288260004352458218580962497206333983975974257268888718779613410752211541439830069833975265983556618142362782647662903911960937626194981462961097278472653280210210519773263886554068951921246565472625327324198010961869079516148908685688666203813330104306112980191287479776110961857254771678827748531978175504582695306778259389696898483924863793703014915714564056538957586457606643692860627298673544031293579706317224031423720106438905739564525, 0, 64⟩ 256 = ⟨7186204014952381006781866563207420613895101098652762358334900492363722813345756785424980625564981808566138646082663269679834273866261326663968209265942451116677318669105271078036953245310799784973240176951461692964412996496551214900919702479774984275706672663671627211800094984837101336670442814004433198317720925466801197530398088009270952124089096951799930371511112987169409747951615057122431976159831615630107892841531293556890596393944193176692645549142579486694748775147022635729896452357130553408772373636166846398464820672702977892954570661071597942010905699147851625187521708517263965142050088574834714140035, 0, 40⟩ := by decide

set_option maxRecDepth 40000 in
theorem prga_chunk_12 : stepKN ⟨7186204014952381006781866563207420613895101098652762358334900492363722813345756785424980625564981808566138646082663269679834273866261326663968209265942451116677318669105271078036953245310799784973240176951461692964412996496551214900919702479774984275706672663671627211800094984837101336670442814004433198317720925466801197530398088009270952124089096951799930371511112987169409747951615057122431976159831615630107892841531293556890596393944193176692645549142579486694748775147022635729896452357130553408772373636166846398464820672702977892954570661071597942010905699147851625187521708517263965142050088574834714140035, 0, 40⟩ 256 = ⟨8733108113057334819169403934317951594948139169980178552404839686249127063397436095701044138958248685886871391982941929183582539310425578765329070792949487442550035616602551845014375325281726517344027360963189863832867811634897062845401260450150378502903159262824587442664603448035551765911239555730524999317645552490798630254787799767331900746836545230721807378598369145473232737882243440941771539473138708388630267512826477000001535479211444337516010588017333295559679816542255420498651836361538131004817958932128457814833057529618843154355261343359772487572064887366549491994553123593736374964677655439679119992890, 0, 9⟩ := by decide

theorem prga_state_256 : stepKN ⟨11200709649678980513989516909105240826050104342921763185395149412334359895947911773901733639954513548261651832268791394313576442266381935501454484750268364949813996185550344131561638396163232444011473268916829872365671631692577209788191592252255472865859155200901073706471406223969895477259756396112095406933289568253016026101632978716813595260948217976199670717981410725956737847439270874403010365021691355305427355452188632920559743954035085011134788911603426178302246569157328824663213513013218521080477968516138220362241461252626964381993770480528291758088468515324359029519140121933562696850501518540720568795905, 0, 0⟩ 256 = ⟨6646758450787849834314584911317525341505779069088980110704997540999854504596707081205916370112033881544336170974567313946201091331939994782719034682098730427538561564122737117384335876963070383467616114605647057650021067407182962670839084931542794397252540818409953517843091359275677626270530883067961729863335682003553897648408928492913035624890907826929357026232616766054164293846420432104291750698683904302497810612635647900829508883808149434250323110962474875966805928804932992234769140646505071327852364822509883680285143896876442558170528020924689436536377630832198282056308112487298229979719772029916786380555, 0, 27⟩ := prga_chunk_1

theorem prga_state_512 : stepKN ⟨11200709649678980513989516909105240826050104342921763185395149412334359895947911773901733639954513548261651832268791394313576442266381935501454484750268364949813996185550344131561638396163232444011473268916829872365671631692577209788191592252255472865859155200901073706471406223969895477259756396112095406933289568253016026101632978716813595260948217976199670717981410725956737847439270874403010365021691355305427355452188632920559743954035085011134788911603426178302246569157328824663213513013218521080477968516138220362241461252626964381993770480528291758088468515324359029519140121933562696850501518540720568795905, 0, 0⟩ 512 = ⟨7143216186133290600294758893525077615056408970818049858336449761590933644183644249112689904206093540140259551936961654012750261246313079660924522774842686340070437915644206458758914335656466690513976098528982097000489494942136966207364515612412603049272020991863828112184602219223972662227745914539085860808613595268121206435973188458968088510591797205169186640493762552037812954652056116601745239530699636982324869137114693226310287790413307834685707195146746596328724035207515629600514208742183158263747256925402253395716977742669568028595750447164187655423274821117019020038204831731112321281622120093827471752490, 0, 151⟩ := by
  rw [show (512 : Nat) = 256 + 256 from rfl, stepKN_add, prga_state_256, prga_chunk_2]

theorem prga_state_768 : stepKN ⟨11200709649678980513989516909105240826050104342921763185395149412334359895947911773901733639954513548261651832268791394313576442266381935501454484750268364949813996185550344131561638396163232444011473268916829872365671631692577209788191592252255472865859155200901073706471406223969895477259756396112095406933289568253016026101632978716813595260948217976199670717981410725956737847439270874403010365021691355305427355452188632920559743954035085011134788911603426178302246569157328824663213513013218521080477968516138220362241461252626964381993770480528291758088468515324359029519140121933562696850501518540720568795905, 0, 0⟩ 768 = ⟨11399247746668640327014494106825524441478908101005487470330809239686536589248305856254967956570184855197315568299598497852489533516861716340404054095877194811977810169119653171738474136151337044561818449517410176104959417015531388994580291056774785475612430532487783692354074902674844508389201242353878022685458903551250699055612566318465328109100068096592419237166433597587078668029765317796714314694181867023565076852419716418402871088240788873554892636399383318405152762557466813966351259948104294298096547303690205460216738343461622844725941429242643037432422495146493118815149484543294071042956279944200920500045, 0, 246⟩ := by
  rw [show (768 : Nat) = 512 + 256 from rfl, stepKN_add, prga_state_512, prga_chunk_3]

theorem prga_state_1024 : stepKN ⟨11200709649678980513989516909105240826050104342921763185395149412334359895947911773901733639954513548261651832268791394313576442266381935501454484750268364949813996185550344131561638396163232444011473268916829872365671631692577209788191592252255472865859155200901073706471406223969895477259756396112095406933289568253016026101632978716813595260948217976199670717981410725956737847439270874403010365021691355305427355452188632920559743954035085011134788911603426178302246569157328824663213513013218521080477968516138220362241461252626964381993770480528291758088468515324359029519140121933562696850501518540720568795905, 0, 0⟩ 1024 = ⟨30498290585832988622961582663054887455190485693448650318964620683566255576738935022337714152602575855365583117793419725712144029891152257204909606091759326972604443036231435157904585604351084276164419214183118542555062483821400375476309827840042112670997362682552230924169604003791227322874514390613971630339238492505194430342711108372883563355760868494120039433772416535377233325358618782300180937607113651892470658634689284502449508133229722115387299858393112721884736484238029892749458327484268306273588760575015481744030831545033023378088329937642142341853934888927757560592150526085602401489108109658593900553390, 0, 178⟩ := by
  rw [show (1024 : Nat) = 768 + 256 from rfl, stepKN_add, prga_state_768, prga_chunk_4]

theorem prga_state_1280 : stepKN ⟨11200709649678980513989516909105240826050104342921763185395149412334359895947911773901733639954513548261651832268791394313576442266381935501454484750268364949813996185550344131561638396163232444011473268916829872365671631692577209788191592252255472865859155200901073706471406223969895477259756396112095406933289568253016026101632978716813595260948217976199670717981410725956737847439270874403010365021691355305427355452188632920559743954035085011134788911603426178302246569157328824663213513013218521080477968516138220362241461252626964381993770480528291758088468515324359029519140121933562696850501518540720568795905, 0, 0⟩ 1280 = ⟨28429628241369654532607235461764543137518676588699027241541368540930711037785334307332383859116548468542660364396314457670080412461868037390753753895155283520363560998006336111208590707741283320847528691903477566159904030667533348640675595100852809470101814877561588506877280646551456030787428384554876188438828071096325861571354812450917723144290787459929546099206366685634939496286819278943129654864924700922720043493047928642761018249864691548493213975692279179702689793732724511745161376513608344502764756041052714715789855638022418837957915490782596630993757803224109028966719414948141700439948687157013242028350, 0, 36⟩ := by
  rw [show (1280 : Nat) = 1024 + 256 from rfl, stepKN_add, prga_state_1024, prga_chunk_5]

theorem prga_state_1536 : stepKN ⟨11200709649678980513989516909105240826050104342921763185395149412334359895947911773901733639954513548261651832268791394313576442266381935501454484750268364949813996185550344131561638396163232444011473268916829872365671631692577209788191592252255472865859155200901073706471406223969895477259756396112095406933289568253016026101632978716813595260948217976199670717981410725956737847439270874403010365021691355305427355452188632920559743954035085011134788911603426178302246569157328824663213513013218521080477968516138220362241461252626964381993770480528291758088468515324359029519140121933562696850501518540720568795905, 0, 0⟩ 1536 = ⟨13635911509311209190520760368945820557254476732101666356549580773716347715263221895351999491778408925568691130588258351459871289396957115508162954246424586704686422735667837686786541115619954650621748453484547846966536620907755809830308066067557443853247816377964358917916088159820243712755091761796035601205500688820728731979022691493862879679383377201346988888476467986536001785527783635253140463787035403609114887028723143373768009959973439505276982518431802917322545532713255133292103632565122543393804036677376839611751068544698695746435232173402726179370773193757146826698349886650431726183143045302462728829075, 0, 179⟩ := by
  rw [show (1536 : Nat) = 1280 + 256 from rfl, stepKN_add, prga_state_1280, prga_chunk_6]

theorem prga_state_1792 : stepKN ⟨11200709649678980513989516909105240826050104342921763185395149412334359895947911773901733639954513548261651832268791394313576442266381935501454484750268364949813996185550344131561638396163232444011473268916829872365671631692577209788191592252255472865859155200901073706471406223969895477259756396112095406933289568253016026101632978716813595260948217976199670717981410725956737847439270874403010365021691355305427355452188632920559743954035085011134788911603426178302246569157328824663213513013218521080477968516138220362241461252626964381993770480528291758088468515324359029519140121933562696850501518540720568795905, 0, 0⟩ 1792 = ⟨31725985352160581134658020392477620023384236926614961656108914309749437451536866250381167054000800322560987584215076651563646104843013388682383002981386664550681907308664271211166006388078940914860813499196245090072895999773140364689770777420781141237471838529070409059002148426888979395877724253098610140992256242574454991754537341515754494417968238319697839562176868580651555835182946020929801543305022256973040167797396692251294739924360551031787922112678404267339625389143829495820530720338836883677271950353019734151317488634743807820313640135892867879615031624894831865822710947948687876010386044210883415049570, 0, 113⟩ := by
  rw [show (1792 : Nat) = 1536 + 256 from rfl, stepKN_add, prga_state_1536, prga_chunk_7]

theorem prga_state_2048 : stepKN ⟨11200709649678980513989516909105240826050104342921763185395149412334359895947911773901733639954513548261651832268791394313576442266381935501454484750268364949813996185550344131561638396163232444011473268916829872365671631692577209788191592252255472865859155200901073706471406223969895477259756396112095406933289568253016026101632978716813595260948217976199670717981410725956737847439270874403010365021691355305427355452188632920559743954035085011134788911603426178302246569157328824663213513013218521080477968516138220362241461252626964381993770480528291758088468515324359029519140121933562696850501518540720568795905, 0, 0⟩ 2048 = ⟨30006628386806380865495534941481559825034098582302995006688399989122500192002931632716281972939997452187028760733263148133671466244791069713930064809749009229915227112145044365834850818922321604346144298734226759015992441280399336976129886320662867878095404719571015167899329261889589892239604985430478887640857112470002181938353565368886807649308744118104824777200918020808352078658753646282348521167538926251539152425939425477029413062611260099525350302804232999618771976646943483630004368546219965532474886117478155416823774947446456046234777125092102795943399239372681120513048252819266669896660067293412465948605, 0, 108⟩ := by
  rw [show (2048 : Nat) = 1792 + 256 from rfl, stepKN_add, prga_state_1792, prga_chunk_8]

theorem prga_state_2304 : stepKN ⟨11200709649678980513989516909105240826050104342921763185395149412334359895947911773901733639954513548261651832268791394313576442266381935501454484750268364949813996185550344131561638396163232444011473268916829872365671631692577209788191592252255472865859155200901073706471406223969895477259756396112095406933289568253016026101632978716813595260948217976199670717981410725956737847439270874403010365021691355305427355452188632920559743954035085011134788911603426178302246569157328824663213513013218521080477968516138220362241461252626964381993770480528291758088468515324359029519140121933562696850501518540720568795905, 0, 0⟩ 2304 = ⟨22715069595439388809181943021920349758839337425828285467764419694347016981391136897665125981789635616929643808499613496837619547247811840026230453804630254175784862282468876592875885429827117368333895216973293400066478935347305671826420427043389134183405616817373946058892851224484035937473187671155354883566024860612145614278447245069052899241193867374866556272451584688256047455973542455148216599608261430242124568564592807772426242602478095020460225508020277471362690093004838782776540538389558074081122137288834469781973081371145055782461759449272329663813494175753364579164128871640549372161796280529710106484805, 0, 230⟩ := by
  rw [show (2304 : Nat) = 2048 + 256 from rfl, stepKN_add, prga_state_2048, prga_chunk_9]

theorem prga_state_2560 : stepKN ⟨11200709649678980513989516909105240826050104342921763185395149412334359895947911773901733639954513548261651832268791394313576442266381935501454484750268364949813996185550344131561638396163232444011473268916829872365671631692577209788191592252255472865859155200901073706471406223969895477259756396112095406933289568253016026101632978716813595260948217976199670717981410725956737847439270874403010365021691355305427355452188632920559743954035085011134788911603426178302246569157328824663213513013218521080477968516138220362241461252626964381993770480528291758088468515324359029519140121933562696850501518540720568795905, 0, 0⟩ 2560 = ⟨24613880400047767031608206540845629816934520448532978193172839064482835778517871290398243547664852824898033985357244905566546509670428794345354141527790079455881157807116311181288260004352458218580962497206333983975974257268888718779613410752211541439830069833975265983556618142362782647662903911960937626194981462961097278472653280210210519773263886554068951921246565472625327324198010961869079516148908685688666203813330104306112980191287479776110961857254771678827748531978175504582695306778259389696898483924863793703014915714564056538957586457606643692860627298673544031293579706317224031423720106438905739564525, 0, 64⟩ := by
  rw [show (2560 : Nat) = 2304 + 256 from rfl, stepKN_add, prga_state_2304, prga_chunk_10]

theorem prga_state_2816 : stepKN ⟨11200709649678980513989516909105240826050104342921763185395149412334359895947911773901733639954513548261651832268791394313576442266381935501454484750268364949813996185550344131561638396163232444011473268916829872365671631692577209788191592252255472865859155200901073706471406223969895477259756396112095406933289568253016026101632978716813595260948217976199670717981410725956737847439270874403010365021691355305427355452188632920559743954035085011134788911603426178302246569157328824663213513013218521080477968516138220362241461252626964381993770480528291758088468515324359029519140121933562696850501518540720568795905, 0, 0⟩ 2816 = ⟨7186204014952381006781866563207420613895101098652762358334900492363722813345756785424980625564981808566138646082663269679834273866261326663968209265942451116677318669105271078036953245310799784973240176951461692964412996496551214900919702479774984275706672663671627211800094984837101336670442814004433198317720925466801197530398088009270952124089096951799930371511112987169409747951615057122431976159831615630107892841531293556890596393944193176692645549142579486694748775147022635729896452357130553408772373636166846398464820672702977892954570661071597942010905699147851625187521708517263965142050088574834714140035, 0, 40⟩ := by
  rw [show (2816 : Nat) = 2560 + 256 from rfl, stepKN_add, prga_state_2560, prga_chunk_11]

theorem prga_state_3072 : stepKN ⟨11200709649678980513989516909105240826050104342921763185395149412334359895947911773901733639954513548261651832268791394313576442266381935501454484750268364949813996185550344131561638396163232444011473268916829872365671631692577209788191592252255472865859155200901073706471406223969895477259756396112095406933289568253016026101632978716813595260948217976199670717981410725956737847439270874403010365021691355305427355452188632920559743954035085011134788911603426178302246569157328824663213513013218521080477968516138220362241461252626964381993770480528291758088468515324359029519140121933562696850501518540720568795905, 0, 0⟩ 3072 = ⟨8733108113057334819169403934317951594948139169980178552404839686249127063397436095701044138958248685886871391982941929183582539310425578765329070792949487442550035616602551845014375325281726517344027360963189863832867811634897062845401260450150378502903159262824587442664603448035551765911239555730524999317645552490798630254787799767331900746836545230721807378598369145473232737882243440941771539473138708388630267512826477000001535479211444337516010588017333295559679816542255420498651836361538131004817958932128457814833057529618843154355261343359772487572064887366549491994553123593736374964677655439679119992890, 0, 9⟩ := by
  rw [show (3072 : Nat) = 2816 + 256 from rfl, stepKN_add, prga_state_2816, prga_chunk_12]

set_option maxRecDepth 40000 in
theorem keystream_window_0 : ksListN ⟨11200709649678980513989516909105240826050104342921763185395149412334359895947911773901733639954513548261651832268791394313576442266381935501454484750268364949813996185550344131561638396163232444011473268916829872365671631692577209788191592252255472865859155200901073706471406223969895477259756396112095406933289568253016026101632978716813595260948217976199670717981410725956737847439270874403010365021691355305427355452188632920559743954035085011134788911603426178302246569157328824663213513013218521080477968516138220362241461252626964381993770480528291758088468515324359029519140121933562696850501518540720568795905, 0, 0⟩ 16 = [0xb2, 0x39, 0x63, 0x05, 0xf0, 0x3d, 0xc0, 0x27, 0xcc, 0xc3, 0x52, 0x4a, 0x0a, 0x11, 0x18, 0xa8] := by decide

set_option maxRecDepth 40000 in
theorem keystream_window_256 : ksListN ⟨6646758450787849834314584911317525341505779069088980110704997540999854504596707081205916370112033881544336170974567313946201091331939994782719034682098730427538561564122737117384335876963070383467616114605647057650021067407182962670839084931542794397252540818409953517843091359275677626270530883067961729863335682003553897648408928492913035624890907826929357026232616766054164293846420432104291750698683904302497810612635647900829508883808149434250323110962474875966805928804932992234769140646505071327852364822509883680285143896876442558170528020924689436536377630832198282056308112487298229979719772029916786380555, 0, 27⟩ 16 = [0x1c, 0xfc, 0xf6, 0x2b, 0x03, 0xed, 0xdb, 0x64, 0x1d, 0x77, 0xdf, 0xcf, 0x7f, 0x8d, 0x8c, 0x93] := by decide

set_option maxRecDepth 40000 in
theorem keystream_window_512 : ksListN ⟨7143216186133290600294758893525077615056408970818049858336449761590933644183644249112689904206093540140259551936961654012750261246313079660924522774842686340070437915644206458758914335656466690513976098528982097000489494942136966207364515612412603049272020991863828112184602219223972662227745914539085860808613595268121206435973188458968088510591797205169186640493762552037812954652056116601745239530699636982324869137114693226310287790413307834685707195146746596328724035207515629600514208742183158263747256925402253395716977742669568028595750447164187655423274821117019020038204831731112321281622120093827471752490, 0, 151⟩ 16 = [0x64, 0x59, 0x84, 0x44, 0x32, 0xa7, 0xda, 0x92, 0x3c, 0xfb, 0x3e, 0xb4, 0x98, 0x06, 0x61, 0xf6] := by decide

set_option maxRecDepth 40000 in
theorem keystream_window_1024 : ksListN ⟨30498290585832988622961582663054887455190485693448650318964620683566255576738935022337714152602575855365583117793419725712144029891152257204909606091759326972604443036231435157904585604351084276164419214183118542555062483821400375476309827840042112670997362682552230924169604003791227322874514390613971630339238492505194430342711108372883563355760868494120039433772416535377233325358618782300180937607113651892470658634689284502449508133229722115387299858393112721884736484238029892749458327484268306273588760575015481744030831545033023378088329937642142341853934888927757560592150526085602401489108109658593900553390, 0, 178⟩ 16 = [0x30, 0xab, 0xbc, 0xc7, 0xc2, 0x0b, 0x01, 0x60, 0x9f, 0x23, 0xee, 0x2d, 0x5f, 0x6b, 0xb7, 0xdf] := by decide

set_option maxRecDepth 40000 in
theorem keystream_window_2048 : ksListN ⟨30006628386806380865495534941481559825034098582302995006688399989122500192002931632716281972939997452187028760733263148133671466244791069713930064809749009229915227112145044365834850818922321604346144298734226759015992441280399336976129886320662867878095404719571015167899329261889589892239604985430478887640857112470002181938353565368886807649308744118104824777200918020808352078658753646282348521167538926251539152425939425477029413062611260099525350302804232999618771976646943483630004368546219965532474886117478155416823774947446456046234777125092102795943399239372681120513048252819266669896660067293412465948605, 0, 108⟩ 16 = [0xcc, 0x58, 0x2f, 0x8b, 0xa9, 0xf2, 0x65, 0xe2, 0xb1, 0xbe, 0x91, 0x12, 0xe9, 0x75, 0xd2, 0xd7] := by decide

set_option maxRecDepth 40000 in
theorem keystream_window_3072 : ksListN ⟨8733108113057334819169403934317951594948139169980178552404839686249127063397436095701044138958248685886871391982941929183582539310425578765329070792949487442550035616602551845014375325281726517344027360963189863832867811634897062845401260450150378502903159262824587442664603448035551765911239555730524999317645552490798630254787799767331900746836545230721807378598369145473232737882243440941771539473138708388630267512826477000001535479211444337516010588017333295559679816542255420498651836361538131004817958932128457814833057529618843154355261343359772487572064887366549491994553123593736374964677655439679119992890, 0, 9⟩ 16 = [0xec, 0x0e, 0x11, 0xc4, 0x79, 0xdc, 0x32, 0x9d, 0xc8, 0xda, 0x79, 0x68, 0xfe, 0x96, 0x56, 0x81] := by decide

/-- C2.  The one-shot entry point with the 5-byte key
`[0x01,0x02,0x03,0x04,0x05]` on a zero-filled buffer of at least 4096
bytes produces the published RC4 keystream: the 16-byte windows at
offsets 0, 256, 512, 1024, 2048 and 3072 equal the published test
vectors (offset 0 gives `b2 39 63 05 f0 3d c0 27 cc c3 52 4a 0a 11 18
a8`). -/
theorem claim_C2_known_answer_vectors (n : Nat) (h : 4096 ≤ n) :
    testWindows ((Rc4.apply_keystream_static [0x01, 0x02, 0x03, 0x04, 0x05]
        (List.replicate n 0)).getD []) =
      [[0xb2, 0x39, 0x63, 0x05, 0xf0, 0x3d, 0xc0, 0x27, 0xcc, 0xc3, 0x52, 0x4a, 0x0a, 0x11, 0x18, 0xa8],
       [0x1c, 0xfc, 0xf6, 0x2b, 0x03, 0xed, 0xdb, 0x64, 0x1d, 0x77, 0xdf, 0xcf, 0x7f, 0x8d, 0x8c, 0x93],
       [0x64, 0x59, 0x84, 0x44, 0x32, 0xa7, 0xda, 0x92, 0x3c, 0xfb, 0x3e, 0xb4, 0x98, 0x06, 0x61, 0xf6],
       [0x30, 0xab, 0xbc, 0xc7, 0xc2, 0x0b, 0x01, 0x60, 0x9f, 0x23, 0xee, 0x2d, 0x5f, 0x6b, 0xb7, 0xdf],
       [0xcc, 0x58, 0x2f, 0x8b, 0xa9, 0xf2, 0x65, 0xe2, 0xb1, 0xbe, 0x91, 0x12, 0xe9, 0x75, 0xd2, 0xd7],
       [0xec, 0x0e, 0x11, 0xc4, 0x79, 0xdc, 0x32, 0x9d, 0xc8, 0xda, 0x79, 0x68, 0xfe, 0x96, 0x56, 0x81]] := by
  have hnew : Rc4.new [0x01, 0x02, 0x03, 0x04, 0x05] =
      some ⟨ksa [0x01, 0x02, 0x03, 0x04, 0x05], 0, 0⟩ := by
    unfold Rc4.new
    rw [if_pos (by constructor <;> decide)]
  have hout : Rc4.apply_keystream_static [0x01, 0x02, 0x03, 0x04, 0x05]
      (List.replicate n 0) =
      some ((Rc4.apply_keystream ⟨ksa [0x01, 0x02, 0x03, 0x04, 0x05], 0, 0⟩
        (List.replicate n 0)).1) := by
    unfold Rc4.apply_keystream_static
    rw [hnew]
    rfl
  rw [hout]
  show testWindows ((Rc4.apply_keystream ⟨ksa [0x01, 0x02, 0x03, 0x04, 0x05], 0, 0⟩
    (List.replicate n 0)).1) = _
  rw [apply_zero_sim n _ (Rc4.wf_mk 0 0 (ksa_perm [0x01, 0x02, 0x03, 0x04, 0x05]))]
  have hview : natView ⟨ksa [0x01, 0x02, 0x03, 0x04, 0x05], 0, 0⟩ =
      (⟨ksaN [0x01, 0x02, 0x03, 0x04, 0x05], 0, 0⟩ : NatRc4) := by
    show (⟨encode (ksa [0x01, 0x02, 0x03, 0x04, 0x05]), 0, 0⟩ : NatRc4) = _
    rw [← ksa_sim]
  rw [hview, ksaN_test_key]
  simp only [testWindows, List.map_cons, List.map_nil]
  rw [ksListN_window _ 0 n (by omega), ksListN_window _ 256 n (by omega),
    ksListN_window _ 512 n (by omega), ksListN_window _ 1024 n (by omega),
    ksListN_window _ 2048 n (by omega), ksListN_window _ 3072 n (by omega)]
  rw [stepKN_zero, prga_state_256, prga_state_512, prga_state_1024,
    prga_state_2048, prga_state_3072]
  rw [keystream_window_0, keystream_window_256, keystream_window_512,
    keystream_window_1024, keystream_window_2048, keystream_window_3072]

/-- Witness for C2 at the exact buffer length 4096. -/
theorem claim_C2_known_answer_vectors_witness :
    testWindows ((Rc4.apply_keystream_static [0x01, 0x02, 0x03, 0x04, 0x05]
        (List.replicate 4096 0)).getD []) =
      [[0xb2, 0x39, 0x63, 0x05, 0xf0, 0x3d, 0xc0, 0x27, 0xcc, 0xc3, 0x52, 0x4a, 0x0a, 0x11, 0x18, 0xa8],
       [0x1c, 0xfc, 0xf6, 0x2b, 0x03, 0xed, 0xdb, 0x64, 0x1d, 0x77, 0xdf, 0xcf, 0x7f, 0x8d, 0x8c, 0x93],
       [0x64, 0x59, 0x84, 0x44, 0x32, 0xa7, 0xda, 0x92, 0x3c, 0xfb, 0x3e, 0xb4, 0x98, 0x06, 0x61, 0xf6],
       [0x30, 0xab, 0xbc, 0xc7, 0xc2, 0x0b, 0x01, 0x60, 0x9f, 0x23, 0xee, 0x2d, 0x5f, 0x6b, 0xb7, 0xdf],
       [0xcc, 0x58, 0x2f, 0x8b, 0xa9, 0xf2, 0x65, 0xe2, 0xb1, 0xbe, 0x91, 0x12, 0xe9, 0x75, 0xd2, 0xd7],
       [0xec, 0x0e, 0x11, 0xc4, 0x79, 0xdc, 0x32, 0x9d, 0xc8, 0xda, 0x79, 0x68, 0xfe, 0x96, 0x56, 0x81]] :=
  claim_C2_known_answer_vectors 4096 (by decide)


/-! ### Frame lemmas for `listSwap` -/

theorem listSwap_self (l : List Nat) (a : Nat) (ha : a < l.length) :
    listSwap l a a = l := by
  unfold listSwap
  rw [List.set_set, set_getD_self _ _ ha]

theorem getD_set_self (l : List Nat) {a : Nat} (ha : a < l.length) (x : Nat) :
    (l.set a x).getD a 0 = x := by
  rw [List.getD_eq_getElem?_getD, List.getElem?_set_self ha]
  rfl

theorem getD_listSwap_of_ne (l : List Nat) {a b k : Nat}
    (hka : k ≠ a) (hkb : k ≠ b) :
    (listSwap l a b).getD k 0 = l.getD k 0 := by
  unfold listSwap
  rw [getD_set_ne _ (fun h => hkb h.symm), getD_set_ne _ (fun h => hka h.symm)]

theorem getD_listSwap_left (l : List Nat) {a b : Nat}
    (ha : a < l.length) (hb : b < l.length) :
    (listSwap l a b).getD a 0 = l.getD b 0 := by
  by_cases hab : a = b
  · subst hab
    rw [listSwap_self l a ha]
  · unfold listSwap
    rw [getD_set_ne _ (Ne.symm hab), getD_set_self l ha]

theorem getD_listSwap_right (l : List Nat) {a b : Nat}
    (hb : b < l.length) :
    (listSwap l a b).getD b 0 = l.getD a 0 := by
  unfold listSwap
  rw [getD_set_self _ (by rwa [List.length_set])]

/-! ### The KSA fold equals the spec-worded ascending pass -/

theorem ksaStep_pair (key : List Nat) (s : List Nat) (j i : Nat) :
    ksaStep key (s, j) i =
      (listSwap s i ((j + s.getD i 0 + key.getD (i % key.length) 0) % 256),
        (j + s.getD i 0 + key.getD (i % key.length) 0) % 256) := rfl

/-- Folding `ksaStep` over `range' n fuel` is the spec-worded recursion
`ksaSpecAux` starting at index `n`. -/
theorem ksa_foldl_eq_specAux (key : List Nat) : ∀ (fuel n : Nat)
    (s : List Nat) (j : Nat),
    (List.range' n fuel).foldl (ksaStep key) (s, j) = ksaSpecAux key fuel n s j := by
  intro fuel
  induction fuel with
  | zero => intro n s j; rfl
  | succ fuel ih =>
    intro n s j
    rw [List.range'_succ, List.foldl_cons, ksaStep_pair]
    exact ih (n + 1) _ _

/-- The embedded KSA equals the spec-worded KSA. -/
theorem ksa_eq_ksaSpec (key : List Nat) : ksa key = ksaSpec key := by
  unfold ksa ksaSpec
  have h : ∀ s0 : List Nat,
      ((List.range 256).foldl (ksaStep key) (s0, 0)).1 =
        (ksaSpecAux key 256 0 s0 0).1 := by
    intro s0
    rw [List.range_eq_range', ksa_foldl_eq_specAux key 256 0 s0 0]
  exact h (List.range 256)

theorem ksa_def (key : List Nat) :
    ksa key = ((List.range 256).foldl (ksaStep key) (List.range 256, 0)).1 := rfl

attribute [irreducible] ksa ksaSpec ksaSpecAux



/-! ### The explicit claims -/

/-- C3.  Constructing a state from a key of length outside `[5, 256]`
fails (no partial state), lengths inside succeed, and the one-shot
entry point surfaces exactly that failure, with no buffer produced. -/
theorem claim_C3_invalid_key_length (key data : List Nat) :
    (Rc4.new key = none ↔ (key.length < 5 ∨ 256 < key.length)) ∧
    (Rc4.apply_keystream_static key data = none ↔ Rc4.new key = none) := by
  constructor
  · unfold Rc4.new
    by_cases hk : 5 ≤ key.length ∧ key.length ≤ 256
    · rw [if_pos hk]
      constructor
      · intro h
        exact Option.noConfusion h
      · intro h
        exact absurd h (by omega)
    · rw [if_neg hk]
      constructor
      · intro _
        omega
      · intro _
        rfl
  · unfold Rc4.apply_keystream_static
    cases hnew : Rc4.new key with
    | none => simp
    | some c => simp

/-- C4.  After key scheduling and after any number of PRGA calls the
256-entry table remains a permutation of the byte values `0..255`. -/
theorem claim_C4_permutation_invariant (key : List Nat) (c : Rc4) (n : Nat)
    (h : Rc4.new key = some c) :
    List.Perm ((c.stepN n).s) (List.range 256) :=
  stepN_wf (new_wf h) n

/-- Witness for C4 at the key `[1,2,3,4,5]` after 3 PRGA steps. -/
theorem claim_C4_permutation_invariant_witness :
    List.Perm (((⟨ksa [1, 2, 3, 4, 5], 0, 0⟩ : Rc4).stepN 3).s)
      (List.range 256) :=
  claim_C4_permutation_invariant [1, 2, 3, 4, 5] ⟨ksa [1, 2, 3, 4, 5], 0, 0⟩ 3
    (by unfold Rc4.new; exact if_pos (by constructor <;> decide))

/-- C5.  Key scheduling starts from the identity permutation (entry `m`
holds `m`), runs the spec-worded ascending pass (`ksaSpec`), and the
returned state has both persistent cursors 0. -/
theorem claim_C5_key_scheduling (key : List Nat) (c : Rc4)
    (h : Rc4.new key = some c) :
    c.s = ksaSpec key ∧ c.i = 0 ∧ c.j = 0 ∧
      (∀ m, m < 256 → (List.range 256).getD m 0 = m) := by
  have hc : c = ⟨ksa key, 0, 0⟩ := by
    unfold Rc4.new at h
    by_cases hk : 5 ≤ key.length ∧ key.length ≤ 256
    · rw [if_pos hk] at h
      exact (Option.some.inj h).symm
    · rw [if_neg hk] at h
      cases h
  subst hc
  refine ⟨?_, rfl, rfl, ?_⟩
  · show ksa key = ksaSpec key
    exact ksa_eq_ksaSpec key
  intro m hm
  rw [List.getD_eq_getElem?_getD, List.getElem?_range hm]
  rfl

/-- Witness for C5 at the key `[1,2,3,4,5]`. -/
theorem claim_C5_key_scheduling_witness :
    (⟨ksa [1, 2, 3, 4, 5], 0, 0⟩ : Rc4).s = ksaSpec [1, 2, 3, 4, 5] :=
  (claim_C5_key_scheduling [1, 2, 3, 4, 5] ⟨ksa [1, 2, 3, 4, 5], 0, 0⟩
    (by unfold Rc4.new; exact if_pos (by constructor <;> decide))).1

/-- C6.  One PRGA call advances `i` to `(i+1) mod 256`, then `j` to
`(j + s[i]) mod 256`, swaps `s[i]` with `s[j]`, and returns
`s[(s[i] + s[j]) mod 256]`, all arithmetic wrapping modulo 256; it is a
total function (no failure). -/
theorem claim_C6_prga_step (c : Rc4) :
    c.prga_next.2.i = (c.i + 1) % 256 ∧
    c.prga_next.2.j = (c.j + c.s.getD ((c.i + 1) % 256) 0) % 256 ∧
    c.prga_next.2.s = listSwap c.s ((c.i + 1) % 256)
      ((c.j + c.s.getD ((c.i + 1) % 256) 0) % 256) ∧
    c.prga_next.1 = c.prga_next.2.s.getD
      ((c.prga_next.2.s.getD ((c.i + 1) % 256) 0 +
        c.prga_next.2.s.getD
          ((c.j + c.s.getD ((c.i + 1) % 256) 0) % 256) 0) % 256) 0 :=
  ⟨rfl, rfl, rfl, rfl⟩

/-- C7.  Keystream application XORs buffer byte `n` (in increasing
index order) with the `n`-th keystream byte, performs exactly `N` PRGA
calls on a buffer of length `N` (final state `c.stepN N`), and only
rewrites the buffer and advances the state. -/
theorem claim_C7_apply_keystream (c : Rc4) (data : List Nat) :
    (c.apply_keystream data).2 = c.stepN data.length ∧
    (c.apply_keystream data).1.length = data.length ∧
    ∀ n, n < data.length →
      (c.apply_keystream data).1.getD n 0 = (data.getD n 0) ^^^ ksByte c n := by
  induction data generalizing c with
  | nil =>
    refine ⟨rfl, rfl, ?_⟩
    intro n hn
    simp at hn
  | cons b rest ih =>
    rw [apply_keystream_cons]
    refine ⟨?_, ?_, ?_⟩
    · show (Rc4.apply_keystream c.prga_next.2 rest).2 = _
      rw [(ih c.prga_next.2).1]
      rfl
    · show ((b ^^^ c.prga_next.1) ::
          (Rc4.apply_keystream c.prga_next.2 rest).1).length = _
      rw [List.length_cons, List.length_cons, (ih c.prga_next.2).2.1]
    · intro n hn
      cases n with
      | zero => rfl
      | succ n =>
        show (Rc4.apply_keystream c.prga_next.2 rest).1.getD n 0 = _
        rw [(ih c.prga_next.2).2.2 n
          (by simp only [List.length_cons] at hn; omega)]
        rfl

/-- Witness for C7: byte 1 of a 2-byte buffer is XORed with keystream
byte 1. -/
theorem claim_C7_apply_keystream_witness :
    ((⟨List.range 256, 0, 0⟩ : Rc4).apply_keystream [7, 9]).1.getD 1 0 =
      9 ^^^ ksByte ⟨List.range 256, 0, 0⟩ 1 :=
  (claim_C7_apply_keystream ⟨List.range 256, 0, 0⟩ [7, 9]).2.2 1 (by decide)

/-- C8.  The one-shot entry point is `initialize(key)` followed by one
`apply` over the whole buffer, discarding the state: it equals the
spec-worded composition for every key and buffer. -/
theorem claim_C8_static_is_initialize_then_apply (key data : List Nat) :
    Rc4.apply_keystream_static key data = applyKeystreamStaticSpec key data := by
  unfold Rc4.apply_keystream_static applyKeystreamStaticSpec initializeSpec
    Rc4.new
  rw [ksa_eq_ksaSpec]

/-- C9.  One PRGA call only exchanges the two table entries at the
post-increment cursors `i` and `j`, leaves every other entry unchanged,
and when `i = j` leaves the whole table unchanged. -/
theorem claim_C9_frame_effect (c : Rc4) (hlen : c.s.length = 256) :
    (∀ k, k ≠ (c.i + 1) % 256 →
      k ≠ (c.j + c.s.getD ((c.i + 1) % 256) 0) % 256 →
      c.prga_next.2.s.getD k 0 = c.s.getD k 0) ∧
    c.prga_next.2.s.getD ((c.i + 1) % 256) 0 =
      c.s.getD ((c.j + c.s.getD ((c.i + 1) % 256) 0) % 256) 0 ∧
    c.prga_next.2.s.getD ((c.j + c.s.getD ((c.i + 1) % 256) 0) % 256) 0 =
      c.s.getD ((c.i + 1) % 256) 0 ∧
    ((c.i + 1) % 256 = (c.j + c.s.getD ((c.i + 1) % 256) 0) % 256 →
      c.prga_next.2.s = c.s) := by
  have hi : (c.i + 1) % 256 < c.s.length := by
    rw [hlen]; exact Nat.mod_lt _ (by omega)
  have hj : (c.j + c.s.getD ((c.i + 1) % 256) 0) % 256 < c.s.length := by
    rw [hlen]; exact Nat.mod_lt _ (by omega)
  have hs : c.prga_next.2.s = listSwap c.s ((c.i + 1) % 256)
      ((c.j + c.s.getD ((c.i + 1) % 256) 0) % 256) := rfl
  rw [hs]
  refine ⟨fun k hka hkb => getD_listSwap_of_ne c.s hka hkb,
    getD_listSwap_left c.s hi hj, getD_listSwap_right c.s hj, fun h => ?_⟩
  rw [← h, listSwap_self c.s _ hi]

/-- Witness for C9 on the identity-table state: entry `i` receives the
old entry `j`. -/
theorem claim_C9_frame_effect_witness :
    (⟨List.range 256, 0, 0⟩ : Rc4).prga_next.2.s.getD ((0 + 1) % 256) 0 =
      (List.range 256).getD
        ((0 + (List.range 256).getD ((0 + 1) % 256) 0) % 256) 0 :=
  (claim_C9_frame_effect ⟨List.range 256, 0, 0⟩
    (List.length_range 256)).2.1


/-- C10 support: an in-bounds `l[n]?` read is `some` of the `getD`
read used by the unchecked embedding. -/
theorem getElem?_some_getD {l : List Nat} {n : Nat} (h : n < l.length) :
    l[n]? = some (l.getD n 0) := by
  rw [List.getElem?_eq_getElem h]
  rw [List.getD_eq_getElem?_getD, List.getElem?_eq_getElem h]
  rfl

theorem listSwapChecked_eq (l : List Nat) {a b : Nat}
    (ha : a < l.length) (hb : b < l.length) :
    listSwapChecked l a b = some (listSwap l a b) := by
  unfold listSwapChecked
  rw [getElem?_some_getD ha, getElem?_some_getD hb]
  simp only [Option.some_bind]
  rfl

theorem ksaStepChecked_eq (key : List Nat) (p : List Nat × Nat) (i : Nat)
    (hlen : p.1.length = 256) (hi : i < 256) (hkey : 0 < key.length) :
    ksaStepChecked key p i = some (ksaStep key p i) := by
  unfold ksaStepChecked
  rw [if_neg (by omega)]
  rw [getElem?_some_getD (show i < p.1.length by omega),
    getElem?_some_getD (Nat.mod_lt i hkey)]
  simp only [Option.some_bind]
  rw [listSwapChecked_eq p.1 (by omega)
    (by rw [hlen]; exact Nat.mod_lt _ (by omega))]
  rfl

theorem ksaChecked_fold_eq (key : List Nat) (hkey : 0 < key.length) :
    ∀ (idxs : List Nat) (p : List Nat × Nat), (∀ i ∈ idxs, i < 256) →
      List.Perm p.1 (List.range 256) →
      idxs.foldlM (ksaStepChecked key) p = some (idxs.foldl (ksaStep key) p) := by
  intro idxs
  induction idxs with
  | nil => intro p _ _; rfl
  | cons i rest ih =>
    intro p hlt hp
    have hlen : p.1.length = 256 := hp.length_eq.trans (List.length_range 256)
    have hi : i < 256 := hlt i (List.mem_cons_self i rest)
    have hperm1 : List.Perm (ksaStep key p i).1 (List.range 256) := by
      refine (listSwap_perm p.1 _ _ (by omega) ?_).trans hp
      rw [hlen]; exact Nat.mod_lt _ (by omega)
    rw [List.foldlM_cons, List.foldl_cons, ksaStepChecked_eq key p i hlen hi hkey]
    show rest.foldlM (ksaStepChecked key) (ksaStep key p i) =
      some (rest.foldl (ksaStep key) (ksaStep key p i))
    exact ih (ksaStep key p i) (fun k hk => hlt k (List.mem_cons_of_mem i hk))
      hperm1

theorem ksaChecked_eq (key : List Nat) (hkey : 0 < key.length) :
    ksaChecked key = some (ksa key) := by
  unfold ksaChecked
  rw [ksaChecked_fold_eq key hkey (List.range 256) (List.range 256, 0)
    (fun _ hi => List.mem_range.mp hi) (List.Perm.refl _)]
  rw [ksa_def]
  rfl

theorem prgaNextChecked_eq {c : Rc4} (h : c.WF) :
    prgaNextChecked c = some c.prga_next := by
  have hlen := h.length_s
  have hi : (c.i + 1) % 256 < c.s.length := by
    rw [hlen]; exact Nat.mod_lt _ (by omega)
  have hj : (c.j + c.s.getD ((c.i + 1) % 256) 0) % 256 < c.s.length := by
    rw [hlen]; exact Nat.mod_lt _ (by omega)
  have hlen2 : (listSwap c.s ((c.i + 1) % 256)
      ((c.j + c.s.getD ((c.i + 1) % 256) 0) % 256)).length = c.s.length :=
    length_listSwap c.s _ _
  unfold prgaNextChecked
  rw [getElem?_some_getD hi]
  simp only [Option.some_bind]
  rw [listSwapChecked_eq c.s hi hj]
  simp only [Option.some_bind]
  rw [getElem?_some_getD (show (c.i + 1) % 256 < (listSwap c.s ((c.i + 1) % 256)
      ((c.j + c.s.getD ((c.i + 1) % 256) 0) % 256)).length by
        rw [hlen2]; exact hi)]
  simp only [Option.some_bind]
  rw [getElem?_some_getD
    (show (c.j + c.s.getD ((c.i + 1) % 256) 0) % 256 <
        (listSwap c.s ((c.i + 1) % 256)
          ((c.j + c.s.getD ((c.i + 1) % 256) 0) % 256)).length by
      rw [hlen2]; exact hj)]
  simp only [Option.some_bind]
  rw [getElem?_some_getD
    (show ((listSwap c.s ((c.i + 1) % 256)
          ((c.j + c.s.getD ((c.i + 1) % 256) 0) % 256)).getD ((c.i + 1) % 256) 0 +
        (listSwap c.s ((c.i + 1) % 256)
          ((c.j + c.s.getD ((c.i + 1) % 256) 0) % 256)).getD
          ((c.j + c.s.getD ((c.i + 1) % 256) 0) % 256) 0) % 256 <
        (listSwap c.s ((c.i + 1) % 256)
          ((c.j + c.s.getD ((c.i + 1) % 256) 0) % 256)).length by
      rw [hlen2, hlen]; exact Nat.mod_lt _ (by omega))]
  rfl

theorem applyChecked_cons (c : Rc4) (b : Nat) (rest : List Nat) :
    applyChecked c (b :: rest) = (prgaNextChecked c).bind fun p =>
      (applyChecked p.2 rest).map fun q => ((b ^^^ p.1) :: q.1, q.2) := rfl

theorem applyChecked_eq : ∀ (data : List Nat) {c : Rc4}, c.WF →
    applyChecked c data = some (c.apply_keystream data) := by
  intro data
  induction data with
  | nil => intro c _; rfl
  | cons b rest ih =>
    intro c h
    rw [applyChecked_cons, prgaNextChecked_eq h]
    simp only [Option.some_bind]
    rw [ih (prga_next_wf h)]
    rfl

theorem newChecked_eq (key : List Nat) (h5 : 5 ≤ key.length)
    (h256 : key.length ≤ 256) : newChecked key = Rc4.new key := by
  unfold newChecked Rc4.new
  rw [if_pos ⟨h5, h256⟩, if_pos ⟨h5, h256⟩, ksaChecked_eq key (by omega)]
  rfl

/-- C10.  For every valid-length key and every buffer, the variant of
the one-shot pipeline that checks every single table and key access
(`applyKeystreamStaticChecked`) never fails and agrees with the
unchecked embedding: once the key-length check passes, every access is
in bounds and `apply_keystream_static` always produces a buffer. -/
theorem claim_C10_memory_safety (key data : List Nat)
    (h5 : 5 ≤ key.length) (h256 : key.length ≤ 256) :
    applyKeystreamStaticChecked key data =
      Rc4.apply_keystream_static key data ∧
    (Rc4.apply_keystream_static key data).isSome := by
  have hnew : Rc4.new key = some ⟨ksa key, 0, 0⟩ := by
    unfold Rc4.new
    rw [if_pos ⟨h5, h256⟩]
  constructor
  · unfold applyKeystreamStaticChecked Rc4.apply_keystream_static
    rw [newChecked_eq key h5 h256, hnew]
    show (applyChecked ⟨ksa key, 0, 0⟩ data).map (fun q => q.1) =
      some ((Rc4.apply_keystream ⟨ksa key, 0, 0⟩ data).1)
    rw [applyChecked_eq data (Rc4.wf_mk 0 0 (ksa_perm key))]
    rfl
  · unfold Rc4.apply_keystream_static
    rw [hnew]
    rfl

/-- Witness for C10 at the key `[1,2,3,4,5]` and the buffer `[1,2,3]`. -/
theorem claim_C10_memory_safety_witness :
    applyKeystreamStaticChecked [1, 2, 3, 4, 5] [1, 2, 3] =
      Rc4.apply_keystream_static [1, 2, 3, 4, 5] [1, 2, 3] ∧
    (Rc4.apply_keystream_static [1, 2, 3, 4, 5] [1, 2, 3]).isSome :=
  claim_C10_memory_safety [1, 2, 3, 4, 5] [1, 2, 3] (by decide) (by decide)

end RC4
